import Mathlib

set_option autoImplicit false

/-!
Shallow embedding of the document-cache, retry, monitoring and PDF
field-extraction core of the Financial-Data-Pipeline repository
(src/sprint1/fondos_mutuos.py and src/sprint1/cmf_monitor.py).

The JSON cache index and the file system are modelled as association lists
from string keys to values; wall-clock time is an abstract Nat (the unit is
irrelevant: the code only compares `datetime.now()` against `expires_at`,
which is `downloaded_at + timedelta(days=ttl)`).  Byte strings are lists of
Nat.  Network transports are functions from the attempt number to an
abstract transport result.
-/

/-! ### Association lists (JSON dict `cache_index`, file system) -/

def alookup {α : Type} : List (String × α) → String → Option α
  | [], _ => none
  | p :: rest, key => if p.1 = key then some p.2 else alookup rest key

def aremove {α : Type} : List (String × α) → String → List (String × α)
  | [], _ => []
  | p :: rest, key => if p.1 = key then aremove rest key else p :: aremove rest key

def aset {α : Type} (l : List (String × α)) (key : String) (v : α) : List (String × α) :=
  (key, v) :: aremove l key

/-! ### Cache data model (fondos_mutuos.py lines 211-430)

`CEntry` is one record of `cache/pdf_cache_index.json`; `CacheState.indexExists`
models `os.path.exists(self.cache_index_path)`; `CacheState.files` models the
blob files on disk (path to byte content). -/

structure CEntry where
  pdf_path : String
  expires_at : Nat
  deriving DecidableEq, Repr

structure CacheState where
  indexExists : Bool
  index : List (String × CEntry)
  files : List (String × List Nat)
  deriving DecidableEq, Repr

structure CacheStats where
  hits : Nat
  misses : Nat
  downloads : Nat
  deriving DecidableEq, Repr

structure LookupResult where
  result : Option String
  st : CacheState
  stats : CacheStats
  deriving DecidableEq, Repr

def cacheKey (rut serie : String) : String := rut ++ "_" ++ serie

def cachedPdfPath (key : String) : String := "cache/pdfs/" ++ key ++ ".pdf"

/-- `_get_cached_pdf` (fondos_mutuos.py lines 254-319): load the index, miss
if the key is absent, self-heal and miss if the blob is gone or the record
expired, otherwise hit.  `datetime.now() > expires_datetime` is
`entry.expires_at < now`. -/
def getCachedPdf (st : CacheState) (stats : CacheStats) (now : Nat) (rut serie : String) :
    LookupResult :=
  let key := cacheKey rut serie
  if st.indexExists = false then
    ⟨none, st, stats⟩
  else
    match alookup st.index key with
    | none => ⟨none, st, { stats with misses := stats.misses + 1 }⟩
    | some entry =>
      if alookup st.files entry.pdf_path = none then
        ⟨none, { st with index := aremove st.index key },
          { stats with misses := stats.misses + 1 }⟩
      else if entry.expires_at < now then
        ⟨none, { st with index := aremove st.index key,
                         files := aremove st.files entry.pdf_path },
          { stats with misses := stats.misses + 1 }⟩
      else
        ⟨some entry.pdf_path, st, { stats with hits := stats.hits + 1 }⟩

structure StoreResult where
  ok : Bool
  st : CacheState
  deriving DecidableEq, Repr

/-- `_save_to_cache` (fondos_mutuos.py lines 321-381): copy the temp file to
`cache/pdfs/{key}.pdf`, set `expires_at = now + ttl` and write the merged
index.  The index loaded before writing is `{}` when the index file does not
exist. -/
def saveToCache (st : CacheState) (now ttlDays : Nat) (rut serie srcPath : String) :
    StoreResult :=
  let key := cacheKey rut serie
  let path := cachedPdfPath key
  match alookup st.files srcPath with
  | none => ⟨false, st⟩
  | some bytes =>
    let index0 := if st.indexExists then st.index else []
    ⟨true,
      { indexExists := true,
        index := aset index0 key ⟨path, now + ttlDays⟩,
        files := aset st.files path bytes }⟩

structure SweepResult where
  st : CacheState
  deletedKeys : List String
  deriving DecidableEq, Repr

def expiredEntry (now : Nat) (p : String × CEntry) : Bool :=
  decide (p.2.expires_at < now)

/-- `_clean_expired_cache` (fondos_mutuos.py lines 383-430): drop every index
record whose `expires_at` has passed, removing its blob when present
(`aremove` of an absent path is the identity, matching the tolerated missing
blob). -/
def cleanExpiredCache (st : CacheState) (now : Nat) : SweepResult :=
  if st.indexExists = false then
    ⟨st, []⟩
  else
    let expired := st.index.filter (expiredEntry now)
    let kept := st.index.filter (fun p => !(expiredEntry now p))
    let files1 := expired.foldl (fun fs p => aremove fs p.2.pdf_path) st.files
    ⟨{ st with index := kept, files := files1 }, expired.map (fun p => p.1)⟩

/-! ### Retry executor (`request_with_retry`, fondos_mutuos.py lines 63-127)

A transport maps the attempt number to a transport-level result.  The loop
`for attempt in range(max_retries)` is modelled by fuel that starts at
`max_retries`; `RetryOutcome.calls` counts the `session.get` calls made. -/

inductive TResult where
  | status (code : Nat)
  | timeout
  | exc
  deriving DecidableEq, Repr

structure RetryOutcome where
  response : Option Nat
  calls : Nat
  deriving DecidableEq, Repr

def retryGo (transport : Nat → TResult) (maxRetries : Nat) :
    Nat → Nat → Nat → RetryOutcome
  | 0, _, calls => ⟨none, calls⟩
  | fuel + 1, attempt, calls =>
    match transport attempt with
    | .status code =>
      if code = 200 then ⟨some 200, calls + 1⟩
      else if (code = 404 ∨ code = 503) ∧ attempt < maxRetries - 1 then
        retryGo transport maxRetries fuel (attempt + 1) (calls + 1)
      else ⟨some code, calls + 1⟩
    | .timeout =>
      if attempt < maxRetries - 1 then retryGo transport maxRetries fuel (attempt + 1) (calls + 1)
      else ⟨none, calls + 1⟩
    | .exc =>
      if attempt < maxRetries - 1 then retryGo transport maxRetries fuel (attempt + 1) (calls + 1)
      else ⟨none, calls + 1⟩

def requestWithRetry (transport : Nat → TResult) (maxRetries : Nat) : RetryOutcome :=
  retryGo transport maxRetries maxRetries 0 0

/-! ### Payload acceptance in `_download_pdf_from_cmf` (lines 1277-1303) -/

def charsPrefix : List Char → List Char → Bool
  | [], _ => true
  | _ :: _, [] => false
  | a :: as, b :: bs => a == b && charsPrefix as bs

def charsInfix (pat : List Char) : List Char → Bool
  | [] => pat.isEmpty
  | c :: rest => charsPrefix pat (c :: rest) || charsInfix pat rest

/-- The Python `pat in s` substring test. -/
def strContains (s pat : String) : Bool := charsInfix pat.toList s.toList

/-- The Python str.lower() call (the strings compared in this code are
ASCII, where Char.toLower agrees with Python). -/
def strToLower (s : String) : String := String.mk (s.toList.map Char.toLower)

def pdfMagic : List Nat := [37, 80, 68, 70]

/-- The PASO 2 acceptance test of `_download_pdf_from_cmf`: the payload is
saved and cached exactly when the HTTP status is 200 and
`'pdf' in content_type.lower() or content[:4] == b'%PDF'`; otherwise the
retriever returns None (document unavailable). -/
def downloadPdfAccept (status : Nat) (contentType : String) (content : List Nat) :
    Option (List Nat) :=
  if status = 200 then
    if strContains (strToLower contentType) "pdf" = true ∨ content.take 4 = pdfMagic then
      some content
    else none
  else none

/-! ### Source Health Monitor, structure probe CHECK 4
(cmf_monitor.py lines 149-168) -/

def hasRunFondo (html : String) : Bool :=
  strContains html "runFondo" || strContains (strToLower html) "run_fondo"

def hasSerie (html : String) : Bool := strContains html "serie"

def hasRutAdmin (html : String) : Bool :=
  strContains html "rutAdmin" || strContains (strToLower html) "rut_admin"

def paramsFound (html : String) : Nat :=
  (if hasRunFondo html then 1 else 0) + (if hasSerie html then 1 else 0) +
    (if hasRutAdmin html then 1 else 0)

/-- `params_status = 'ok' if params_found >= 2 else 'warning' if
params_found >= 1 else 'critical'` (cmf_monitor.py line 155). -/
def paramsStatus (html : String) : String :=
  if 2 ≤ paramsFound html then "ok"
  else if 1 ≤ paramsFound html then "warning"
  else "critical"

/-! ### Extraction confidence (fondos_mutuos.py lines 2533-2545) -/

/-- `porcentaje_extraido = (campos_extraidos / campos_totales) * 100` with
`campos_totales = 20`, bucketed at 70 and 40.  The Python float arithmetic is
exact at both bucket boundaries (14/20*100 and 8/20*100 round to 70.0 and
40.0), so rational arithmetic is a faithful model. -/
def extractionConfidence (camposExtraidos : Nat) : String :=
  if 70 ≤ (camposExtraidos : ℚ) / 20 * 100 then "high"
  else if 40 ≤ (camposExtraidos : ℚ) / 20 * 100 then "medium"
  else "low"

def confidenceRank (level : String) : Nat :=
  if level = "high" then 2 else if level = "medium" then 1 else 0

/-! ### Risk scale extraction, PATRON 2 (fondos_mutuos.py lines 1716-1749)

The regex `\bR([1-7])\b` is modelled by a left-to-right scan with explicit
word boundaries.  Word characters are ASCII alphanumerics and underscore
(Python matches Unicode word characters; the difference only changes which
texts match, not the joint assignment of the two risk fields). -/

def isWordChar (c : Char) : Bool := c.isAlphanum || c = '_'

def boundaryOk : Option Char → Bool
  | none => true
  | some c => !isWordChar c

def matchR (prev : Option Char) (c : Char) (rest : List Char) : Option Nat :=
  match rest with
  | [] => none
  | d :: rest2 =>
    if c = 'R' ∧ boundaryOk prev = true ∧ 49 ≤ d.toNat ∧ d.toNat ≤ 55 ∧
        boundaryOk rest2.head? = true then
      some (d.toNat - 48)
    else none

def firstRAux : Option Char → List Char → Option Nat
  | _, [] => none
  | prev, c :: rest =>
    match matchR prev c rest with
    | some n => some n
    | none => firstRAux (some c) rest

/-- The R1-R7 to Bajo/Medio/Alto conversion at lines 1726-1731. -/
def riskBucketStr (n : Nat) : String :=
  if n ≤ 2 then "Bajo" else if n ≤ 4 then "Medio" else "Alto"

def patronesRiesgo : List (String × List String) :=
  [("Bajo", ["riesgo bajo", "bajo riesgo", "conservador", "risk: low"]),
   ("Alto", ["riesgo alto", "alto riesgo", "agresivo", "risk: high"]),
   ("Medio", ["riesgo medio", "riesgo moderado", "moderado", "risk: medium"])]

def keywordRiesgo (textoLower : String) : Option String :=
  (patronesRiesgo.find? (fun p => p.2.any (fun k => strContains textoLower k))).map Prod.fst

/-- PATRON 2 of `_extract_extended_data_from_pdf`: part A sets both
`perfil_riesgo_escala` and `perfil_riesgo` from the first `\bR([1-7])\b`
match; part B runs the keyword fallback for `perfil_riesgo` only when part A
found nothing. -/
def extractRiesgo (texto : String) : Option String × Option String :=
  match firstRAux none texto.toList with
  | some n => (some ("R" ++ toString n), some (riskBucketStr n))
  | none => (none, keywordRiesgo (strToLower texto))

/-! ### Patrimonio extraction, PATRON 7 (fondos_mutuos.py lines 2244-2289)

The regex `([A-Z]{3})?\s*\$?\s*([\d.,]+)` backtracks trivially (whenever the
optional pieces are present but the tail fails, the alternative without them
fails too), so a greedy deterministic matcher at each start position is an
exact model of `re.search`. -/

def isSpaceChar (c : Char) : Bool :=
  c = ' ' || c = '\t' || c = '\n' || c = '\r' || c = '\x0b' || c = '\x0c'

def isUpperAZ (c : Char) : Bool := 65 ≤ c.toNat && c.toNat ≤ 90

def isMoneyChar (c : Char) : Bool := c.isDigit || c = '.' || c = ','

def matchMoneyAt (cs : List Char) : Option (Option String × String) :=
  let step1 : Option String × List Char :=
    match cs with
    | a :: b :: c :: rest =>
      if isUpperAZ a && isUpperAZ b && isUpperAZ c then (some (String.mk [a, b, c]), rest)
      else (none, cs)
    | _ => (none, cs)
  let rest1 := step1.2.dropWhile isSpaceChar
  let rest2 := match rest1 with
    | '$' :: r => r
    | _ => rest1
  let rest3 := rest2.dropWhile isSpaceChar
  let digits := rest3.takeWhile isMoneyChar
  if digits.isEmpty then none else some (step1.1, String.mk digits)

def searchMoney : List Char → Option (Option String × String)
  | [] => none
  | c :: rest =>
    match matchMoneyAt (c :: rest) with
    | some r => some r
    | none => searchMoney rest

/-- `float(match.group(2).replace('.', '').replace(',', ''))`: strip the
separators, fail (ValueError, caught and skipped) when nothing is left. -/
def parseMonto (s : String) : Option Nat :=
  let ds := s.toList.filter (fun c => !(c = '.' || c = ','))
  if ds.isEmpty then none
  else if ds.all Char.isDigit then
    some (ds.foldl (fun n c => n * 10 + (c.toNat - 48)) 0)
  else none

def patrimonioSerieLabel (lineaLower : String) : Bool :=
  strContains lineaLower "patrimonio serie" || strContains lineaLower "patrimonio de la serie"

def patrimonioFondoLabel (lineaLower : String) : Bool :=
  strContains lineaLower "patrimonio total" || strContains lineaLower "patrimonio del fondo" ||
    strContains lineaLower "patrimonio fondo"

/-- Pattern B of PATRON 7 applied to one line: on the fondo-label lines the
code sets `patrimonio_fondo` to the matched amount and `patrimonio_moneda` to
`match.group(1) or resultado.get('moneda') or 'CLP'` (line 2273).
`docMoneda` is the `moneda` field extracted earlier from the document.
Lines matching the serie label take the elif Pattern A branch instead. -/
def extractPatrimonioFondoLine (docMoneda : Option String) (linea : String) :
    Option Nat × Option String :=
  if patrimonioSerieLabel (strToLower linea) then (none, none)
  else if patrimonioFondoLabel (strToLower linea) then
    match searchMoney linea.toList with
    | none => (none, none)
    | some (g1, montoStr) =>
      match parseMonto montoStr with
      | none => (none, none)
      | some monto =>
        (some monto, some ((g1.orElse fun _ => docMoneda).getD "CLP"))
  else (none, none)

/-- The per-document PATRON 7 loop has no break: every matching line
overwrites the fields, so the last matching line wins. -/
def extractPatrimonioDoc (docMoneda : Option String) (lineas : List String) :
    Option Nat × Option String :=
  lineas.foldl
    (fun acc linea =>
      match extractPatrimonioFondoLine docMoneda linea with
      | (some m, mo) => (some m, mo)
      | (none, _) => acc)
    (none, none)

/-! ### Public boundary of `_extract_extended_data_from_pdf`
(fondos_mutuos.py lines 1311, 2549-2554)

The whole body sits inside one try block; `pdfplumber.open` and text
extraction are the fallible part, modelled as an `Except` input.
`FileNotFoundError` yields the fixed message of line 2551, any other
exception yields its message (line 2554).  The ok branch carries the
risk-profile and patrimonio fields modelled above. -/

inductive PdfErr where
  | fileNotFound
  | other (msg : String)
  deriving DecidableEq, Repr

structure ExtractOutcome where
  pdf_procesado : Bool
  error : Option String
  perfil_riesgo_escala : Option String
  perfil_riesgo : Option String
  patrimonio : Option Nat
  patrimonio_moneda : Option String
  deriving DecidableEq, Repr

def okOutcome (texto : String) : ExtractOutcome :=
  let riesgo := extractRiesgo texto
  let pat := extractPatrimonioDoc none (texto.splitOn "\n")
  { pdf_procesado := true, error := none,
    perfil_riesgo_escala := riesgo.1, perfil_riesgo := riesgo.2,
    patrimonio := pat.1, patrimonio_moneda := pat.2 }

def extractExtendedDataFromPdf (input : Except PdfErr String) : ExtractOutcome :=
  match input with
  | .error .fileNotFound =>
    { pdf_procesado := false, error := some "Archivo no encontrado",
      perfil_riesgo_escala := none, perfil_riesgo := none,
      patrimonio := none, patrimonio_moneda := none }
  | .error (.other msg) =>
    { pdf_procesado := false, error := some msg,
      perfil_riesgo_escala := none, perfil_riesgo := none,
      patrimonio := none, patrimonio_moneda := none }
  | .ok texto => okOutcome texto

def isOkExcept : Except PdfErr String → Bool
  | .ok _ => true
  | .error _ => false

/-! ### Demonstration inputs used by witnesses -/

def demoCache : CacheState := ⟨false, [], [("temp/f.pdf", [37, 80, 68, 70])]⟩

def demoNoIndex : CacheState := ⟨false, [("10446_A", ⟨"cache/pdfs/10446_A.pdf", 5⟩)], []⟩

/-! ### Helper lemmas -/

theorem alookup_aset_self {α : Type} (l : List (String × α)) (k : String) (v : α) :
    alookup (aset l k v) k = some v := by
  simp [aset, alookup]

theorem alookup_aremove_self {α : Type} (l : List (String × α)) (k : String) :
    alookup (aremove l k) k = none := by
  induction l with
  | nil => rfl
  | cons p rest ih =>
    by_cases hp : p.1 = k
    · simpa [aremove, hp] using ih
    · simp [aremove, hp, alookup, ih]

theorem retryGo_always_404 (transport : Nat → TResult) (maxRetries : Nat)
    (h404 : ∀ i, transport i = .status 404) :
    ∀ fuel attempt calls, 1 ≤ fuel → attempt + fuel = maxRetries →
      retryGo transport maxRetries fuel attempt calls = ⟨some 404, calls + fuel⟩ := by
  intro fuel
  induction fuel with
  | zero => intro attempt calls h1 _; omega
  | succ f ih =>
    intro attempt calls _ hsum
    simp only [retryGo, h404 attempt]
    cases f with
    | zero =>
      have hlt : ¬ attempt < maxRetries - 1 := by omega
      simp [hlt]
    | succ f2 =>
      have hlt : attempt < maxRetries - 1 := by omega
      have hrec := ih (attempt + 1) (calls + 1) (by omega) (by omega)
      simp [hlt, hrec]
      omega

theorem extractionConfidence_eq (c : Nat) :
    extractionConfidence c = if 14 ≤ c then "high" else if 8 ≤ c then "medium" else "low" := by
  unfold extractionConfidence
  rw [show (c : ℚ) / 20 * 100 = 5 * (c : ℚ) from by ring]
  by_cases h14 : 14 ≤ c
  · have hc : (14 : ℚ) ≤ (c : ℚ) := by exact_mod_cast h14
    have h70 : (70 : ℚ) ≤ 5 * (c : ℚ) := by linarith
    simp [h70, h14]
  · have hc : (c : ℚ) ≤ 13 := by exact_mod_cast Nat.le_of_lt_succ (by omega)
    have h70 : ¬ (70 : ℚ) ≤ 5 * (c : ℚ) := by linarith
    by_cases h8 : 8 ≤ c
    · have hc8 : (8 : ℚ) ≤ (c : ℚ) := by exact_mod_cast h8
      have h40 : (40 : ℚ) ≤ 5 * (c : ℚ) := by linarith
      simp [h70, h40, h14, h8]
    · have hc7 : (c : ℚ) ≤ 7 := by exact_mod_cast Nat.le_of_lt_succ (by omega)
      have h40 : ¬ (40 : ℚ) ≤ 5 * (c : ℚ) := by linarith
      simp [h70, h40, h14, h8]

theorem firstRAux_bounds (cs : List Char) :
    ∀ (prev : Option Char) (n : Nat), firstRAux prev cs = some n → 1 ≤ n ∧ n ≤ 7 := by
  induction cs with
  | nil => intro prev n h; simp [firstRAux] at h
  | cons c rest ih =>
    intro prev n h
    simp only [firstRAux] at h
    cases hm : matchR prev c rest with
    | some m =>
      rw [hm] at h
      have hmn : m = n := by injection h
      subst hmn
      cases rest with
      | nil => simp [matchR] at hm
      | cons d rest2 =>
        rw [matchR] at hm
        split_ifs at hm with h1
        obtain ⟨_, _, hd1, hd2, _⟩ := h1
        injection hm with hm2
        omega
    | none =>
      rw [hm] at h
      exact ih (some c) n h

theorem filter_not_filter_self {α : Type} (l : List α) (p : α → Bool) :
    (l.filter fun a => !p a).filter p = [] := by
  induction l with
  | nil => rfl
  | cons a rest ih =>
    cases hp : p a with
    | true => simp [List.filter_cons, hp, ih]
    | false => simp [List.filter_cons, hp, ih]

theorem filter_not_idem {α : Type} (l : List α) (p : α → Bool) :
    ((l.filter fun a => !p a).filter fun a => !p a) = l.filter fun a => !p a := by
  induction l with
  | nil => rfl
  | cons a rest ih =>
    cases hp : p a with
    | true => simp [List.filter_cons, hp, ih]
    | false => simp [List.filter_cons, hp, ih]

/-! ### Claim theorems -/

/-- C1: for every cache key (registry id, series code), after a store of the
document bytes a lookup of the same key hits and its blob is the stored
document, for as long as the blob file is on disk and the time has not
passed `expires_at`; once the TTL has elapsed, or the blob has been
externally deleted, the same lookup misses and removes the stale index
record, so the index no longer contains the key. -/
theorem cache_store_lookup_roundtrip
    (st : CacheState) (stats : CacheStats) (now ttl t : Nat)
    (rut serie srcPath : String) (bytes : List Nat)
    (h : alookup st.files srcPath = some bytes) :
    (saveToCache st now ttl rut serie srcPath).ok = true ∧
    alookup (saveToCache st now ttl rut serie srcPath).st.files
        (cachedPdfPath (cacheKey rut serie)) = some bytes ∧
    (t ≤ now + ttl →
      getCachedPdf (saveToCache st now ttl rut serie srcPath).st stats t rut serie =
        ⟨some (cachedPdfPath (cacheKey rut serie)),
          (saveToCache st now ttl rut serie srcPath).st,
          { stats with hits := stats.hits + 1 }⟩) ∧
    (now + ttl < t →
      (getCachedPdf (saveToCache st now ttl rut serie srcPath).st stats t rut serie).result =
          none ∧
      alookup
          (getCachedPdf (saveToCache st now ttl rut serie srcPath).st stats t rut
            serie).st.index (cacheKey rut serie) = none) ∧
    ((getCachedPdf
          { (saveToCache st now ttl rut serie srcPath).st with
            files := aremove (saveToCache st now ttl rut serie srcPath).st.files
                (cachedPdfPath (cacheKey rut serie)) } stats t rut serie).result = none ∧
      alookup
          (getCachedPdf
              { (saveToCache st now ttl rut serie srcPath).st with
                files := aremove (saveToCache st now ttl rut serie srcPath).st.files
                    (cachedPdfPath (cacheKey rut serie)) } stats t rut serie).st.index
          (cacheKey rut serie) = none) := by
  have hsave : saveToCache st now ttl rut serie srcPath =
      ⟨true,
        { indexExists := true,
          index := aset (if st.indexExists then st.index else []) (cacheKey rut serie)
              ⟨cachedPdfPath (cacheKey rut serie), now + ttl⟩,
          files := aset st.files (cachedPdfPath (cacheKey rut serie)) bytes }⟩ := by
    simp [saveToCache, h]
  rw [hsave]
  refine ⟨rfl, alookup_aset_self _ _ _, ?_, ?_, ?_⟩
  · intro ht
    have hne : ¬ now + ttl < t := by omega
    simp [getCachedPdf, alookup_aset_self, hne]
  · intro ht
    simp [getCachedPdf, alookup_aset_self, ht, alookup_aremove_self]
  · simp [getCachedPdf, alookup_aset_self, alookup_aremove_self]

/-- C1 witness: a concrete store followed by an unexpired lookup hits with
the stored path and bumps the hits counter. -/
theorem cache_store_lookup_roundtrip_witness :
    alookup demoCache.files "temp/f.pdf" = some [37, 80, 68, 70] ∧
      getCachedPdf (saveToCache demoCache 0 30 "10446" "A" "temp/f.pdf").st ⟨0, 0, 0⟩ 10
          "10446" "A" =
        ⟨some (cachedPdfPath (cacheKey "10446" "A")),
          (saveToCache demoCache 0 30 "10446" "A" "temp/f.pdf").st, ⟨0 + 1, 0, 0⟩⟩ :=
  ⟨by decide,
    (cache_store_lookup_roundtrip demoCache ⟨0, 0, 0⟩ 0 30 10 "10446" "A" "temp/f.pdf"
        [37, 80, 68, 70] (by decide)).2.2.1 (by omega)⟩

/-- C7: the expired-cache sweep is idempotent: with no intervening store and
no entry crossing its expiry (modelled by running both sweeps at the same
time `now`), a second sweep deletes no index entry and no blob. -/
theorem sweep_expired_idempotent (st : CacheState) (now : Nat) :
    cleanExpiredCache (cleanExpiredCache st now).st now =
      ⟨(cleanExpiredCache st now).st, []⟩ := by
  obtain ⟨b, idx, fls⟩ := st
  cases b with
  | false => simp [cleanExpiredCache]
  | true =>
    simp only [cleanExpiredCache]
    simp [filter_not_filter_self, filter_not_idem]

/-- C8: when the cache index file does not exist, a lookup returns a miss
(None) without touching the state or any of the hits, misses and downloads
counters. -/
theorem cache_lookup_no_index_frame
    (st : CacheState) (stats : CacheStats) (now : Nat) (rut serie : String)
    (h : st.indexExists = false) :
    getCachedPdf st stats now rut serie = ⟨none, st, stats⟩ := by
  simp [getCachedPdf, h]

/-- C8 witness: a concrete lookup against a missing index file leaves the
counters (2, 3, 4) untouched. -/
theorem cache_lookup_no_index_frame_witness :
    demoNoIndex.indexExists = false ∧
      getCachedPdf demoNoIndex ⟨2, 3, 4⟩ 7 "10446" "A" = ⟨none, demoNoIndex, ⟨2, 3, 4⟩⟩ :=
  ⟨rfl, cache_lookup_no_index_frame demoNoIndex ⟨2, 3, 4⟩ 7 "10446" "A" rfl⟩

/-- C3 counterexample: with a transport that returns HTTP 404 on every
attempt and max_retries = 3, `request_with_retry` returns the final 404
response itself, not the RetryExhausted failure value (None) the claim
asserts. -/
theorem retry_404_counterexample :
    requestWithRetry (fun _ => TResult.status 404) 3 = ⟨some 404, 3⟩ ∧
      (requestWithRetry (fun _ => TResult.status 404) 3).response ≠ none := by
  constructor
  · rfl
  · decide

/-- C3 amended: for every transport that returns HTTP 404 on every attempt,
the retry executor performs exactly max_attempts transport calls and then
returns the final 404 response itself (the None failure value is reserved
for timeout and transport-exception exhaustion). -/
theorem retry_404_returns_last_response (transport : Nat → TResult) (maxRetries : Nat)
    (h404 : ∀ i, transport i = .status 404) (hpos : 1 ≤ maxRetries) :
    requestWithRetry transport maxRetries = ⟨some 404, maxRetries⟩ := by
  have h := retryGo_always_404 transport maxRetries h404 maxRetries 0 0 hpos (by omega)
  simpa [requestWithRetry] using h

/-- C3 witness: the amended statement at max_retries = 4. -/
theorem retry_404_returns_last_response_witness :
    1 ≤ 4 ∧ requestWithRetry (fun _ => TResult.status 404) 4 = ⟨some 404, 4⟩ :=
  ⟨by decide,
    retry_404_returns_last_response (fun _ => TResult.status 404) 4 (fun _ => rfl)
      (by decide)⟩

/-- C4: the confidence level is the bucket of the ratio of extracted fields
over the 20 expected fields (high at 70 percent, medium at 40 percent,
otherwise low), and the bucket is monotone non-decreasing in the count of
extracted fields with low < medium < high. -/
theorem confidence_bucket_monotone :
    (∀ c : Nat,
      (extractionConfidence c = "high" ↔ (70 : ℚ) ≤ (c : ℚ) / 20 * 100) ∧
      (extractionConfidence c = "medium" ↔
        (40 : ℚ) ≤ (c : ℚ) / 20 * 100 ∧ ¬ (70 : ℚ) ≤ (c : ℚ) / 20 * 100) ∧
      (extractionConfidence c = "low" ↔ ¬ (40 : ℚ) ≤ (c : ℚ) / 20 * 100)) ∧
    (∀ c1 c2 : Nat, c1 ≤ c2 →
      confidenceRank (extractionConfidence c1) ≤ confidenceRank (extractionConfidence c2)) := by
  constructor
  · intro c
    by_cases h70 : (70 : ℚ) ≤ (c : ℚ) / 20 * 100
    · have h40 : (40 : ℚ) ≤ (c : ℚ) / 20 * 100 := by linarith
      have he : extractionConfidence c = "high" := by simp [extractionConfidence, h70]
      refine ⟨by simp [he, h70], ?_, ?_⟩
      · constructor
        · intro hm
          rw [he] at hm
          exact absurd hm (by decide)
        · intro hm
          exact absurd h70 hm.2
      · constructor
        · intro hl
          rw [he] at hl
          exact absurd hl (by decide)
        · intro hl
          exact absurd h40 hl
    · by_cases h40 : (40 : ℚ) ≤ (c : ℚ) / 20 * 100
      · have he : extractionConfidence c = "medium" := by
          simp [extractionConfidence, h70, h40]
        refine ⟨?_, by simp [he, h70, h40], ?_⟩
        · constructor
          · intro hh
            rw [he] at hh
            exact absurd hh (by decide)
          · intro hh
            exact absurd hh h70
        · constructor
          · intro hl
            rw [he] at hl
            exact absurd hl (by decide)
          · intro hl
            exact absurd h40 hl
      · have he : extractionConfidence c = "low" := by
          simp [extractionConfidence, h70, h40]
        refine ⟨?_, ?_, by simp [he, h40]⟩
        · constructor
          · intro hh
            rw [he] at hh
            exact absurd hh (by decide)
          · intro hh
            exact absurd hh h70
        · constructor
          · intro hm
            rw [he] at hm
            exact absurd hm (by decide)
          · intro hm
            exact absurd hm.1 h40
  · intro c1 c2 hle
    rw [extractionConfidence_eq, extractionConfidence_eq]
    have r1 : confidenceRank "high" = 2 := by decide
    have r2 : confidenceRank "medium" = 1 := by decide
    have r3 : confidenceRank "low" = 0 := by decide
    split_ifs <;> simp [r1, r2, r3] <;> omega

/-- C4 witness: the monotonicity instance 5 extracted fields against 14. -/
theorem confidence_bucket_monotone_witness :
    (5 : Nat) ≤ 14 ∧
      confidenceRank (extractionConfidence 5) ≤ confidenceRank (extractionConfidence 14) :=
  ⟨by decide, confidence_bucket_monotone.2 5 14 (by decide)⟩

/-- C5 counterexample: a 200 payload whose leading bytes are not the percent
PDF signature is still accepted, saved and cached when the Content-Type
header contains pdf, contradicting the claim that every such payload is
treated as an invalid document. -/
theorem pdf_signature_counterexample :
    downloadPdfAccept 200 "application/pdf" [0, 0, 0, 0] = some [0, 0, 0, 0] ∧
      ([0, 0, 0, 0] : List Nat).take 4 ≠ pdfMagic := by
  constructor
  · rfl
  · decide

/-- C5 amended: a 200 payload is accepted (saved and cached) exactly when
the Content-Type header contains pdf (case-insensitively) or its leading
four bytes are the PDF signature; when neither holds, and on any non-200
status, the retriever yields None (document unavailable, nothing saved). -/
theorem pdf_accept_characterization (status : Nat) (ct : String) (content : List Nat) :
    (downloadPdfAccept status ct content = some content ↔
      status = 200 ∧ (strContains (strToLower ct) "pdf" = true ∨ content.take 4 = pdfMagic)) ∧
    (downloadPdfAccept status ct content = none ∨
      downloadPdfAccept status ct content = some content) := by
  unfold downloadPdfAccept
  split_ifs with h1 h2
  · simp [h1, h2]
  · simp [h1, h2]
  · simp [h1]

/-- C6 counterexample: a probed page containing the serie and rutAdmin
tokens but missing runFondo (exactly one of the three expected parameter
tokens absent) reports ok, not the degraded warning status the claim
asserts. -/
theorem monitor_params_counterexample :
    hasRunFondo "serie rutAdmin" = false ∧ hasSerie "serie rutAdmin" = true ∧
      hasRutAdmin "serie rutAdmin" = true ∧ paramsStatus "serie rutAdmin" = "ok" ∧
      ("ok" : String) ≠ "warning" := by
  refine ⟨by decide, by decide, by decide, by decide, by decide⟩

/-- C6 amended: the expected-parameters check reports ok whenever at least
two of the three tokens are present (so a single missing token still reports
ok), warning when exactly one is present, and critical when none is. -/
theorem monitor_params_status_thresholds (html : String) :
    (paramsStatus html = "ok" ↔ 2 ≤ paramsFound html) ∧
    (paramsStatus html = "warning" ↔ paramsFound html = 1) ∧
    (paramsStatus html = "critical" ↔ paramsFound html = 0) := by
  unfold paramsStatus
  by_cases h2 : 2 ≤ paramsFound html
  · refine ⟨by simp [h2], ?_, ?_⟩
    · rw [if_pos h2]
      constructor
      · intro hh
        exact absurd hh (by decide)
      · intro hh
        omega
    · rw [if_pos h2]
      constructor
      · intro hh
        exact absurd hh (by decide)
      · intro hh
        omega
  · by_cases h1 : 1 ≤ paramsFound html
    · refine ⟨?_, ?_, ?_⟩
      · rw [if_neg h2, if_pos h1]
        constructor
        · intro hh
          exact absurd hh (by decide)
        · intro hh
          omega
      · rw [if_neg h2, if_pos h1]
        simp
        omega
      · rw [if_neg h2, if_pos h1]
        constructor
        · intro hh
          exact absurd hh (by decide)
        · intro hh
          omega
    · refine ⟨?_, ?_, ?_⟩
      · rw [if_neg h2, if_neg h1]
        constructor
        · intro hh
          exact absurd hh.symm (by decide)
        · intro hh
          omega
      · rw [if_neg h2, if_neg h1]
        constructor
        · intro hh
          exact absurd hh.symm (by decide)
        · intro hh
          omega
      · rw [if_neg h2, if_neg h1]
        simp
        omega

/-- C2 counterexample: on the line Patrimonio Total $ 1.000.000 the currency
group of the amount regex does not match and no document currency was
extracted, yet the extractor populates patrimonio_moneda with the fabricated
default CLP instead of leaving it null. -/
theorem patrimonio_clp_default_counterexample :
    searchMoney ("Patrimonio Total $ 1.000.000".toList) = some (none, "1.000.000") ∧
      extractPatrimonioFondoLine none "Patrimonio Total $ 1.000.000" =
        (some 1000000, some "CLP") ∧
      (some "CLP" : Option String) ≠ none := by
  refine ⟨by decide, by decide, by decide⟩

/-- C2 amended: in the patrimonio extraction a field is populated only when
the amount pattern matched on the line; however, whenever the amount matched,
the currency field is never left null: it is populated even without any
matched currency, defaulting to the document currency or to CLP. -/
theorem patrimonio_moneda_amended (docMoneda : Option String) (linea : String) :
    ((extractPatrimonioFondoLine docMoneda linea).2.isSome =
      (extractPatrimonioFondoLine docMoneda linea).1.isSome) ∧
    ((searchMoney linea.toList).map Prod.fst = some none →
      (extractPatrimonioFondoLine none linea).2 = none ∨
        (extractPatrimonioFondoLine none linea).2 = some "CLP") := by
  constructor
  · unfold extractPatrimonioFondoLine
    split_ifs with hA hB
    · rfl
    · cases hsm : searchMoney linea.toList with
      | none => rfl
      | some r =>
        obtain ⟨g1, ms⟩ := r
        cases hp : parseMonto ms with
        | none => simp [hp]
        | some m => simp [hp]
    · rfl
  · intro hmap
    unfold extractPatrimonioFondoLine
    split_ifs with hA hB
    · exact Or.inl rfl
    · cases hsm : searchMoney linea.toList with
      | none => exact Or.inl rfl
      | some r =>
        obtain ⟨g1, ms⟩ := r
        rw [hsm] at hmap
        simp only [Option.map_some'] at hmap
        have hg : g1 = none := by injection hmap
        subst hg
        cases hp : parseMonto ms with
        | none => exact Or.inl (by simp [hp])
        | some m =>
          refine Or.inr ?_
          simp only [hp]
          rfl
    · exact Or.inl rfl

/-- C2 amended witness: the concrete CLP-defaulting line instantiates the
amended statement. -/
theorem patrimonio_moneda_amended_witness :
    (searchMoney ("Patrimonio Total $ 1.000.000".toList)).map Prod.fst = some none ∧
      ((extractPatrimonioFondoLine none "Patrimonio Total $ 1.000.000").2 = none ∨
        (extractPatrimonioFondoLine none "Patrimonio Total $ 1.000.000").2 = some "CLP") :=
  ⟨by decide,
    (patrimonio_moneda_amended none "Patrimonio Total $ 1.000.000").2 (by decide)⟩

/-- C9: whenever the 7-point scale pattern matches with value n (so the
scale code field is populated with Rn), the coarse risk profile field is
populated as well, with Bajo for n at most 2, Medio for n between 3 and 4,
and Alto for n at least 5; the scale code is never set with the profile left
null. -/
theorem risk_scale_code_implies_profile (texto : String) (n : Nat)
    (h : firstRAux none texto.toList = some n) :
    (extractRiesgo texto).1 = some ("R" ++ toString n) ∧
    (extractRiesgo texto).2 = some (riskBucketStr n) ∧
    1 ≤ n ∧ n ≤ 7 ∧
    (n ≤ 2 → (extractRiesgo texto).2 = some "Bajo") ∧
    (3 ≤ n → n ≤ 4 → (extractRiesgo texto).2 = some "Medio") ∧
    (5 ≤ n → (extractRiesgo texto).2 = some "Alto") ∧
    ((extractRiesgo texto).1.isSome = true → (extractRiesgo texto).2.isSome = true) := by
  obtain ⟨h1, h7⟩ := firstRAux_bounds texto.toList none n h
  unfold extractRiesgo
  rw [h]
  refine ⟨rfl, rfl, h1, h7, ?_, ?_, ?_, fun _ => rfl⟩
  · intro hn
    simp [riskBucketStr, hn]
  · intro h3 h4
    have t2 : ¬ n ≤ 2 := by omega
    simp [riskBucketStr, t2, h4]
  · intro h5
    have t2 : ¬ n ≤ 2 := by omega
    have t4 : ¬ n ≤ 4 := by omega
    simp [riskBucketStr, t2, t4]

/-- C9 witness: the scale match R3 in a concrete text populates both the
scale code and the Medio profile. -/
theorem risk_scale_code_implies_profile_witness :
    firstRAux none ("Perfil R3.".toList) = some 3 ∧
      (extractRiesgo "Perfil R3.").1 = some ("R" ++ toString 3) ∧
      (extractRiesgo "Perfil R3.").2 = some (riskBucketStr 3) :=
  ⟨by decide, (risk_scale_code_implies_profile "Perfil R3." 3 (by decide)).1,
    (risk_scale_code_implies_profile "Perfil R3." 3 (by decide)).2.1⟩

/-- C10: the field extractor is total at its public boundary: for every
input, including a missing file or an unparsable PDF, it returns a record
and never propagates the failure; pdf_procesado is False exactly on the
failure inputs and an error message is carried exactly there (a missing file
yields the fixed message of the FileNotFoundError handler). -/
theorem extractor_total_at_boundary :
    (∀ input : Except PdfErr String,
      (extractExtendedDataFromPdf input).pdf_procesado = isOkExcept input ∧
      (extractExtendedDataFromPdf input).error.isNone = isOkExcept input) ∧
    (extractExtendedDataFromPdf (Except.error PdfErr.fileNotFound)).error =
      some "Archivo no encontrado" := by
  constructor
  · intro input
    cases input with
    | ok texto => exact ⟨rfl, rfl⟩
    | error e =>
      cases e with
      | fileNotFound => exact ⟨rfl, rfl⟩
      | other msg => exact ⟨rfl, rfl⟩
  · rfl
